import Mathlib

/-!
Verification development for the BehaviorMetrics pilot core.

This file gives a shallow embedding of `src/behavior_metrics/pilot.py`
(the control-loop scheduler `Pilot.run`, the metrics summarization it
performs on RUNNING-to-PAUSED edges, and the `play`/`kill` commands)
and of the frame-data store of
`src/behavior_metrics/utils/CARLAController.py`.

Python exceptions that matter to the claims (ZeroDivisionError from
`sum(xs) / len(xs)`, TypeError from arithmetic on `None`, AttributeError
from attribute access on `None`) are modelled with `Except PyError`.
Durations and clock readings are rationals; the global `clock_time`
(which is `None` before the first `/clock` message) is `Option ℚ`.
-/

namespace BehaviorMetrics

/-- The Python exception kinds that the pilot code can raise on the
paths the claims are about. -/
inductive PyError where
  | zeroDivision
  | typeError
  | attributeError
deriving DecidableEq, Repr

/-- Python division `a / b`: raises ZeroDivisionError when `b = 0`. -/
def pydiv (a b : ℚ) : Except PyError ℚ :=
  if b = 0 then .error .zeroDivision else .ok (a / b)

/-- Python slice `l[10:-10]` on a list: drop the first 10 and the last 10
elements; empty whenever the list has 20 or fewer elements. -/
def pySlice10 (l : List ℚ) : List ℚ :=
  (l.drop 10).take (l.length - 20)

/-- Python subtraction on possibly-`None` floats, as in
`clock_time - start_time_ros` (pilot.py:204): raises TypeError if either
operand is `None`. -/
def osub (a b : Option ℚ) : Except PyError ℚ :=
  match a, b with
  | some x, some y => .ok (x - y)
  | _, _ => .error .typeError

/-- The state of the active brain (Decision Step) that `Pilot.run` reads:
`inference_times` (mutated in place by the trim at pilot.py:158),
`gpu_inference` and `first_image`. `first_image` is opaque data. -/
structure Brain where
  inference_times : List ℚ
  gpu_inference : Bool
  first_image : Option Unit
deriving DecidableEq, Repr

/-- The inference statistics computed (or fallen back to) by the
try/except block at pilot.py:157-173. -/
structure InfStats where
  mean_inference_time : ℚ
  frame_rate : ℚ
  gpu_inference : Bool
  first_image : Option Unit
deriving DecidableEq, Repr

/-- The fallback assigned by the `except` handler at pilot.py:167-173:
`mean_inference_time = 0`, `frame_rate = 0`, `gpu_inference = False`,
`first_image = None`. -/
def fallbackInf : InfStats :=
  { mean_inference_time := 0, frame_rate := 0
    gpu_inference := false, first_image := none }

/-- pilot.py:157-173.  `self.brains.active_brain` is `Option Brain`
(`none` when no decision step was ever loaded, in which case the very
first attribute access raises AttributeError, caught by the handler).
When the brain exists, the trim `inference_times = inference_times[10:-10]`
at line 158 mutates the brain before the divisions run, so the mutation
persists even when a division raises and the handler assigns the
fallback.  Every exception inside the block is caught, so the result is
total. -/
def summarizeInference (brain : Option Brain) : Option Brain × InfStats :=
  match brain with
  | none => (none, fallbackInf)
  | some b =>
    let t := pySlice10 b.inference_times
    let b' : Brain := { b with inference_times := t }
    match pydiv t.sum (t.length : ℚ) with
    | .error _ => (some b', fallbackInf)
    | .ok m =>
      match pydiv (t.length : ℚ) t.sum with
      | .error _ => (some b', fallbackInf)
      | .ok r =>
        (some b', { mean_inference_time := m, frame_rate := r
                    gpu_inference := b.gpu_inference
                    first_image := b.first_image })

/-- The summary values computed on a RUNNING-to-PAUSED edge
(pilot.py:157-184) and handed to `controller.save_metrics`. -/
structure MetricsSummary where
  mean_iteration_time : ℚ
  mean_ros_iteration_time : ℚ
  mean_inference_time : ℚ
  frame_rate : ℚ
  gpu_inference : Bool
  first_image : Option Unit
deriving DecidableEq, Repr

/-- pilot.py:157-188, the whole summarization of a run segment.  The
iteration-time means at lines 175-176 are OUTSIDE any try/except, so a
ZeroDivisionError there propagates (returned as `.error`).  On success
returns the possibly-trimmed brain and the summary. -/
def summarize (brain : Option Brain) (brainIts rosIts : List ℚ) :
    Except PyError (Option Brain × MetricsSummary) :=
  let p := summarizeInference brain
  match pydiv brainIts.sum (brainIts.length : ℚ) with
  | .error e => .error e
  | .ok mit =>
    match pydiv rosIts.sum (rosIts.length : ℚ) with
    | .error e => .error e
    | .ok mrit =>
      .ok (p.1, { mean_iteration_time := mit
                  mean_ros_iteration_time := mrit
                  mean_inference_time := p.2.mean_inference_time
                  frame_rate := p.2.frame_rate
                  gpu_inference := p.2.gpu_inference
                  first_image := p.2.first_image })

/-- The per-tick environment of one iteration of the `while` loop of
`Pilot.run`: the flag values observed (`kill_event` at line 139,
`stop_event` at line 142), the global `clock_time` at tick start
(line 141) and at tick end (line 204), whether
`self.brains.active_brain.execute()` returns normally (`execOk = false`
models the AttributeError path of lines 148-151), the inference samples
the brain appends during a successful `execute()`, and the measured wall
duration `ms / 1000` appended at line 205. -/
structure TickInput where
  kill : Bool
  stop : Bool
  clockStart : Option ℚ
  clockEnd : Option ℚ
  execOk : Bool
  infSamples : List ℚ
  wallSeconds : ℚ
deriving DecidableEq, Repr

/-- The loop-local and object state of `Pilot.run`:
`stopped_brain_metrics`, `successful_iteration` (lines 135-136),
`brain_iterations_time` and `ros_iterations_time` (lines 137-138),
`execution_completed`, the active brain, and (model-level output) the
list of summaries produced so far. -/
structure PilotState where
  brain : Option Brain
  stoppedBrainMetrics : Bool
  successfulIteration : Bool
  brainIterationsTime : List ℚ
  rosIterationsTime : List ℚ
  executionCompleted : Bool
  summaries : List MetricsSummary
deriving DecidableEq, Repr

/-- State at entry of `Pilot.run` (lines 133-138; `execution_completed`
was set `False` by the constructor). -/
def initState (brain : Option Brain) : PilotState :=
  { brain := brain
    stoppedBrainMetrics := false
    successfulIteration := false
    brainIterationsTime := []
    rosIterationsTime := []
    executionCompleted := false
    summaries := [] }

/-- pilot.py:36: the global `clock_time` starts as `None`. -/
def initClockTime : Option ℚ := none

/-- pilot.py:39-41: the `/clock` subscriber callback overwrites the
global `clock_time` with the message value. -/
def clock_callback (c : ℚ) (clock_time : Option ℚ) : Option ℚ :=
  some c

/-- One iteration of the `while` body of `Pilot.run` (pilot.py:140-205),
entered when `kill_event` was not set.
If `stop_event` is clear (RUNNING): mark the segment active
(`stopped_brain_metrics = True`, line 144) and run `execute()`; an
AttributeError (brain missing or not ready) is caught and only marks the
iteration failed.  If `stop_event` is set and the segment was active:
run the summarization (lines 153-189), which clears
`brain_iterations_time` only, appends one summary and may raise.
Finally (lines 203-205), if the iteration was successful, append
`clock_time - start_time_ros` to `ros_iterations_time` — raising
TypeError when either clock reading is `None` — and the wall duration to
`brain_iterations_time`. -/
def tick (st : PilotState) (i : TickInput) : Except PyError PilotState :=
  let st1e : Except PyError PilotState :=
    if i.stop then
      if st.stoppedBrainMetrics then
        match summarize st.brain st.brainIterationsTime st.rosIterationsTime with
        | .error e => .error e
        | .ok (b', s) =>
          .ok { st with brain := b'
                        stoppedBrainMetrics := false
                        successfulIteration := false
                        brainIterationsTime := []
                        executionCompleted := true
                        summaries := st.summaries ++ [s] }
      else .ok st
    else
      let stR := { st with executionCompleted := false, stoppedBrainMetrics := true }
      if i.execOk && st.brain.isSome then
        .ok { stR with successfulIteration := true
                       brain := stR.brain.map fun b =>
                         { b with inference_times := b.inference_times ++ i.infSamples } }
      else
        .ok { stR with successfulIteration := false }
  match st1e with
  | .error e => .error e
  | .ok st1 =>
    if st1.successfulIteration then
      match osub i.clockEnd i.clockStart with
      | .error e => .error e
      | .ok d =>
        .ok { st1 with rosIterationsTime := st1.rosIterationsTime ++ [d]
                       brainIterationsTime := st1.brainIterationsTime ++ [i.wallSeconds] }
    else .ok st1

/-- The `while not self.kill_event.is_set()` loop of `Pilot.run` over a
finite schedule of tick environments: each entry carries the flag values
observed at the top of that iteration; when `kill` is observed set the
loop exits with the current state, and an uncaught exception inside the
body terminates the thread (`.error`). -/
def runLoop : PilotState → List TickInput → Except PyError PilotState
  | st, [] => .ok st
  | st, i :: rest =>
    if i.kill then .ok st
    else
      match tick st i with
      | .error e => .error e
      | .ok st' => runLoop st' rest

/-- Cross-thread flags of a `Pilot` object: whether the loop thread was
started (`threading.Thread.is_alive`), and the `stop_event` /
`kill_event` flags. -/
structure PilotFlags where
  alive : Bool
  stopEventSet : Bool
  killEventSet : Bool
deriving DecidableEq, Repr

/-- Flag state after `Pilot.__init__`: the thread is not started, and
`initialize_robot` ends with `__wait_gazebo`, which sets `stop_event`
(pilot.py:92-96); `kill_event` is clear. -/
def pilotInitFlags : PilotFlags :=
  { alive := false, stopEventSet := true, killEventSet := false }

/-- `Pilot.play` (pilot.py:214-220): if the thread is alive, clear
`stop_event`; otherwise call `start()`, which only spawns the thread and
touches no flag. -/
def play (p : PilotFlags) : PilotFlags :=
  if p.alive then { p with stopEventSet := false }
  else { p with alive := true }

/-- The actuators object; `kill` on it deactivates it. -/
structure ActuatorsState where
  active : Bool
deriving DecidableEq, Repr

/-- `Pilot.initialize_robot` (pilot.py:106-111): actuators are
constructed only when `robot_type != 'drone'`; for a drone the attribute
keeps the `None` from `__init__` (pilot.py:76). -/
def initializeActuators (robot_type : String) : Option ActuatorsState :=
  if robot_type ≠ "drone" then some { active := true } else none

/-- `Pilot.kill` (pilot.py:222-226): first `self.actuators.kill()`, then
`self.kill_event.set()`.  When `actuators` is `None` the attribute call
raises AttributeError and the method aborts before the flag is set, so
on `.error` the caller's `kill_event` is unchanged; on success it
returns the deactivated actuators and the flag now set. -/
def pilotKill (actuators : Option ActuatorsState) :
    Except PyError (Option ActuatorsState × Bool) :=
  match actuators with
  | none => .error .attributeError
  | some a => .ok (some { a with active := false }, true)

/-- `CARLAController.update_frame` (CARLAController.py:88-101): store
`data` under `frame_id` in the `data` dict (last write wins). -/
def update_frame {α : Type} (data : String → Option α) (frame_id : String) (d : α) :
    String → Option α :=
  fun k => if k = frame_id then some d else data k

/-- `CARLAController.get_data` (CARLAController.py:103-120):
`self.data.get(frame_id, None)`. -/
def get_data {α : Type} (data : String → Option α) (frame_id : String) : Option α :=
  data frame_id

/-- `CARLAController.__init__`: `self.data = {}`. -/
def emptyData (α : Type) : String → Option α := fun _ => none

/-- A sequence of `update_frame` calls applied in order. -/
def applyUpdates {α : Type} (data : String → Option α) :
    List (String × α) → (String → Option α)
  | [] => data
  | (f, d) :: rest => applyUpdates (update_frame data f d) rest

/-- Number of inference samples held by the (possibly absent) brain. -/
def infLen (brain : Option Brain) : ℕ :=
  match brain with
  | none => 0
  | some b => b.inference_times.length

/- Concrete tick environments and brains used in closed evaluations. -/

/-- A RUNNING tick whose `execute()` raises AttributeError. -/
def tickRunFail : TickInput :=
  { kill := false, stop := false, clockStart := none, clockEnd := none
    execOk := false, infSamples := [], wallSeconds := 0 }

/-- A tick observed with `stop_event` set (PAUSED). -/
def tickPause : TickInput :=
  { kill := false, stop := true, clockStart := none, clockEnd := none
    execOk := false, infSamples := [], wallSeconds := 0 }

/-- A successful RUNNING tick with the external clock available. -/
def tickRunOk : TickInput :=
  { kill := false, stop := false, clockStart := some 0, clockEnd := some 1
    execOk := true, infSamples := [], wallSeconds := 1 }

/-- A successful RUNNING tick before any `/clock` message arrived: both
clock readings are the initial `clock_time = None`. -/
def tickRunOkNoClock : TickInput :=
  { kill := false, stop := false, clockStart := initClockTime, clockEnd := initClockTime
    execOk := true, infSamples := [], wallSeconds := 1 }

/-- A tick at whose top `kill_event` is observed set. -/
def tickKill : TickInput :=
  { kill := true, stop := false, clockStart := none, clockEnd := none
    execOk := false, infSamples := [], wallSeconds := 0 }

/-- A loaded brain with no inference samples yet. -/
def brain0 : Brain :=
  { inference_times := [], gpu_inference := false, first_image := none }

/-- A brain with exactly 25 inference samples 1..25. -/
def brain25 : Brain :=
  { inference_times :=
      [1, 2, 3, 4, 5, 6, 7, 8, 9, 10, 11, 12, 13, 14, 15,
       16, 17, 18, 19, 20, 21, 22, 23, 24, 25]
    gpu_inference := true, first_image := some () }

/-- A brain with exactly 20 inference samples, hardware acceleration on
and a first image present (so the fallback visibly overrides them). -/
def brain20 : Brain :=
  { inference_times := List.replicate 20 1
    gpu_inference := true, first_image := some () }

/- Helper lemmas. -/

theorem pySlice10_length (l : List ℚ) : (pySlice10 l).length = l.length - 20 := by
  simp [pySlice10]
  omega

theorem applyUpdates_not_written {α : Type} :
    ∀ (ups : List (String × α)) (m : String → Option α) (f : String),
      (∀ p ∈ ups, p.1 ≠ f) → applyUpdates m ups f = m f := by
  intro ups
  induction ups with
  | nil => intro m f _; rfl
  | cons p rest ih =>
    intro m f h
    obtain ⟨pf, pd⟩ := p
    have hpf : pf ≠ f := h (pf, pd) (List.mem_cons_self _ _)
    have hrest : ∀ q ∈ rest, q.1 ≠ f := fun q hq => h q (List.mem_cons_of_mem _ hq)
    rw [applyUpdates, ih _ f hrest]
    show (if f = pf then some pd else m f) = m f
    exact if_neg fun hh => hpf hh.symm

/- Claim theorems. -/

/-- Claim C1. The claim says that when a run segment is summarized and
every iteration in it failed (empty `brain_iterations_time`), the
aggregator returns zeros instead of dividing by zero and the loop thread
does not raise.  The code does the opposite: a segment consisting of one
failed iteration (AttributeError from `execute()`, which still sets
`stopped_brain_metrics = True`) followed by a pause reaches
`sum(brain_iterations_time) / len(brain_iterations_time)` at
pilot.py:175 outside any try/except, and the thread dies with
ZeroDivisionError. -/
theorem claim_C1_all_failed_segment_divzero :
    runLoop (initState none) [tickRunFail, tickPause] =
      .error PyError.zeroDivision := rfl

/-- Claim C3. The claim says a tick with the external clock unavailable
(`clock_time = None`) skips external-duration accounting and continues.
The code instead evaluates `clock_time - start_time_ros` at pilot.py:204
whenever the iteration was successful, and with `None` operands this
raises TypeError, killing the loop thread: shown on the very first
RUNNING tick with a working brain before any `/clock` message. -/
theorem claim_C3_unavailable_clock_typeerror :
    runLoop (initState (some brain0)) [tickRunOkNoClock] =
      .error PyError.typeError := rfl

/-- Claim C6. When the brain's inference sample set has more than 20
samples, the summarization replaces it by the slice dropping the first
10 and last 10 (pilot.py:158) and computes `mean_inference_time` as the
arithmetic mean (sum over count) of the remaining samples and the frame
rate as their count divided by their sum (pilot.py:159-162).  The
hypothesis that the trimmed samples do not sum to zero is the
definedness condition of the frame-rate division (real latencies are
positive). -/
theorem claim_C6_trim_mean_framerate (b : Brain)
    (h : 20 < b.inference_times.length)
    (hs : (pySlice10 b.inference_times).sum ≠ 0) :
    summarizeInference (some b) =
      (some { b with inference_times := pySlice10 b.inference_times },
       { mean_inference_time :=
           (pySlice10 b.inference_times).sum / ((pySlice10 b.inference_times).length : ℚ)
         frame_rate :=
           ((pySlice10 b.inference_times).length : ℚ) / (pySlice10 b.inference_times).sum
         gpu_inference := b.gpu_inference
         first_image := b.first_image }) := by
  have hlen : (pySlice10 b.inference_times).length ≠ 0 := by
    rw [pySlice10_length]; omega
  have hlenQ : ((pySlice10 b.inference_times).length : ℚ) ≠ 0 := by
    exact_mod_cast hlen
  unfold summarizeInference
  simp only [pydiv]
  rw [if_neg hlenQ, if_neg hs]

/-- Claim C6 witness: exactly 25 samples 1..25; the trimmed slice is
[11, 12, 13, 14, 15], whose mean is 13 and whose frame rate is 5/65 = 1/13. -/
theorem claim_C6_witness :
    20 < brain25.inference_times.length ∧
    (pySlice10 brain25.inference_times).sum ≠ 0 ∧
    summarizeInference (some brain25) =
      (some { brain25 with inference_times := pySlice10 brain25.inference_times },
       { mean_inference_time :=
           (pySlice10 brain25.inference_times).sum / ((pySlice10 brain25.inference_times).length : ℚ)
         frame_rate :=
           ((pySlice10 brain25.inference_times).length : ℚ) / (pySlice10 brain25.inference_times).sum
         gpu_inference := brain25.gpu_inference
         first_image := brain25.first_image }) :=
  have hsum : (pySlice10 brain25.inference_times).sum ≠ 0 := by
    have htrim : pySlice10 brain25.inference_times = [11, 12, 13, 14, 15] := by
      simp [pySlice10, brain25]
    rw [htrim]
    norm_num
  ⟨by decide, hsum, claim_C6_trim_mean_framerate brain25 (by decide) hsum⟩

/-- Claim C7. With 20 or fewer inference samples (including the empty
set and the absent brain), the trimmed slice is empty, the division
raises ZeroDivisionError inside the try block, and the except handler at
pilot.py:167-173 falls back to `mean_inference_time = 0`,
`frame_rate = 0`, `gpu_inference = False`, `first_image = None` — the
summarizer is total, so it never propagates an exception from this part. -/
theorem claim_C7_fallback_at_most_20 (brain : Option Brain)
    (h : infLen brain ≤ 20) :
    (summarizeInference brain).2 = fallbackInf := by
  match brain with
  | none => rfl
  | some b =>
    have hl : b.inference_times.length - 20 = 0 := by
      simp [infLen] at h; omega
    have ht : pySlice10 b.inference_times = [] := by
      simp [pySlice10, hl]
    unfold summarizeInference
    simp [ht, pydiv]

/-- Evaluation of the summarizer on the empty-sample brain, used by the
closed trace computations. -/
theorem summarizeInference_brain0 :
    summarizeInference (some brain0) = (some brain0, fallbackInf) := by
  unfold summarizeInference
  simp [brain0, pySlice10, pydiv]

/-- Claim C2 counterexample.  The claim says that after every
summarization the ENTIRE IterationSample sequence — both the
wall-duration and the external-duration component — is cleared.  On the
concrete trace "one successful iteration, then pause", a summarization
happens (one summary is produced) yet `ros_iterations_time` still holds
its sample afterwards: pilot.py:188 resets only `brain_iterations_time`. -/
theorem claim_C2_ros_not_cleared_cex :
    Except.map (fun st => (st.summaries.length, st.rosIterationsTime))
        (runLoop (initState (some brain0)) [tickRunOk, tickPause]) = .ok (1, [1]) ∧
    ([1] : List ℚ) ≠ [] := by
  constructor
  · norm_num [runLoop, tick, summarize, summarizeInference_brain0, osub, pydiv,
      initState, tickRunOk, tickPause, fallbackInf, Except.map]
  · simp

/-- Claim C2, amended: after every summarization only the wall-duration
sequence `brain_iterations_time` is cleared (so ITS length equals the
number of successful iterations since the last summarization: exactly
one wall sample is appended per successful iteration and none per failed
one), while the external-duration sequence `ros_iterations_time` is left
unchanged by summarization and accumulates across segments. -/
theorem claim_C2_wall_cleared_ros_persists :
    (∀ (st : PilotState) (i : TickInput) (st' : PilotState),
       i.stop = true → st.stoppedBrainMetrics = true → tick st i = .ok st' →
       st'.brainIterationsTime = [] ∧ st'.rosIterationsTime = st.rosIterationsTime) ∧
    (∀ (st : PilotState) (i : TickInput) (st' : PilotState) (ce cs : ℚ),
       i.stop = false → (i.execOk && st.brain.isSome) = true →
       i.clockEnd = some ce → i.clockStart = some cs → tick st i = .ok st' →
       st'.brainIterationsTime = st.brainIterationsTime ++ [i.wallSeconds] ∧
       st'.rosIterationsTime = st.rosIterationsTime ++ [ce - cs]) ∧
    (∀ (st : PilotState) (i : TickInput) (st' : PilotState),
       i.stop = false → (i.execOk && st.brain.isSome) = false → tick st i = .ok st' →
       st'.brainIterationsTime = st.brainIterationsTime ∧
       st'.rosIterationsTime = st.rosIterationsTime) := by
  refine ⟨?_, ?_, ?_⟩
  · intro st i st' hstop hseg htick
    unfold tick at htick
    rw [if_pos hstop, if_pos hseg] at htick
    rcases hsum : summarize st.brain st.brainIterationsTime st.rosIterationsTime with e | p
    · rw [hsum] at htick; cases htick
    · obtain ⟨b', s⟩ := p
      rw [hsum] at htick
      simp at htick
      rw [← htick]
      exact ⟨rfl, rfl⟩
  · intro st i st' ce cs hstop hok hce hcs htick
    unfold tick at htick
    rw [if_neg (by simp [hstop]), if_pos hok] at htick
    simp [hce, hcs, osub] at htick
    rw [← htick]
    exact ⟨rfl, rfl⟩
  · intro st i st' hstop hok htick
    unfold tick at htick
    rw [if_neg (by simp [hstop]), if_neg (by simp [hok])] at htick
    simp at htick
    rw [← htick]
    exact ⟨rfl, rfl⟩

/-- A state in the middle of an active run segment: one successful
iteration recorded, `stopped_brain_metrics` set. -/
def stSeg : PilotState :=
  { brain := some brain0
    stoppedBrainMetrics := true
    successfulIteration := false
    brainIterationsTime := [1]
    rosIterationsTime := [1]
    executionCompleted := false
    summaries := [] }

/-- Claim C2 witness: the amended behavior on a concrete summarizing
tick (only the wall sequence is cleared), a concrete successful RUNNING
tick (one wall sample appended) and a concrete failed one (nothing
appended). -/
theorem claim_C2_witness :
    (∃ st', tick stSeg tickPause = .ok st' ∧
            st'.brainIterationsTime = [] ∧ st'.rosIterationsTime = stSeg.rosIterationsTime) ∧
    (∃ st', tick (initState (some brain0)) tickRunOk = .ok st' ∧
            st'.brainIterationsTime = [] ++ [tickRunOk.wallSeconds]) ∧
    (∃ st', tick (initState none) tickRunFail = .ok st' ∧
            st'.brainIterationsTime = [] ∧ st'.rosIterationsTime = []) := by
  have hA : tick stSeg tickPause =
      .ok { brain := some brain0
            stoppedBrainMetrics := false
            successfulIteration := false
            brainIterationsTime := []
            rosIterationsTime := [1]
            executionCompleted := true
            summaries := [{ mean_iteration_time := 1
                            mean_ros_iteration_time := 1
                            mean_inference_time := 0
                            frame_rate := 0
                            gpu_inference := false
                            first_image := none }] } := by
    norm_num [tick, summarize, summarizeInference_brain0, pydiv, stSeg, tickPause, fallbackInf]
  have hB : tick (initState (some brain0)) tickRunOk =
      .ok { brain := some brain0
            stoppedBrainMetrics := true
            successfulIteration := true
            brainIterationsTime := [1]
            rosIterationsTime := [1]
            executionCompleted := false
            summaries := [] } := by
    norm_num [tick, osub, initState, tickRunOk, brain0]
  have hC : tick (initState none) tickRunFail =
      .ok { brain := none
            stoppedBrainMetrics := true
            successfulIteration := false
            brainIterationsTime := []
            rosIterationsTime := []
            executionCompleted := false
            summaries := [] } := by
    norm_num [tick, initState, tickRunFail]
  refine ⟨⟨_, hA, claim_C2_wall_cleared_ros_persists.1 stSeg tickPause _ rfl rfl hA⟩,
          ⟨_, hB, ?_⟩,
          ⟨_, hC, (claim_C2_wall_cleared_ros_persists.2.2 (initState none) tickRunFail _
            rfl rfl hC).1, (claim_C2_wall_cleared_ros_persists.2.2 (initState none)
            tickRunFail _ rfl rfl hC).2⟩⟩
  exact (claim_C2_wall_cleared_ros_persists.2.1 (initState (some brain0)) tickRunOk _
    1 0 rfl rfl rfl rfl hB).1

/-- Claim C7 witness: a brain with exactly 20 samples, hardware
acceleration on and a first image present still yields the zero/default
fallback. -/
theorem claim_C7_witness :
    infLen (some brain20) ≤ 20 ∧
    (summarizeInference (some brain20)).2 = fallbackInf :=
  ⟨by decide, claim_C7_fallback_at_most_20 (some brain20) (by decide)⟩

/-- Claim C4 counterexample.  The claim says that calling `play()` when
the loop thread is not yet running spawns the thread AND immediately
sets the loop state to RUNNING (stop flag cleared).  On the state left
by the constructor (thread not alive, `stop_event` set by
`__wait_gazebo`), `play()` takes the `else` branch and only calls
`start()` (pilot.py:220), which touches no flag: afterwards the thread
is alive but `stop_event` is still set, so the loop starts PAUSED. -/
theorem claim_C4_spawn_leaves_paused_cex :
    (play pilotInitFlags).alive = true ∧
    (play pilotInitFlags).stopEventSet = true := ⟨rfl, rfl⟩

/-- Claim C4, amended: `play()` when the thread is not alive spawns it
but leaves the stop flag unchanged (so with the constructor's flag set
the loop starts paused); `play()` when the thread is alive clears the
stop flag (PAUSED to RUNNING); and `play()` is idempotent when already
RUNNING (alive with the stop flag clear). -/
theorem claim_C4_play_amended (p : PilotFlags) :
    (p.alive = false → play p = { p with alive := true }) ∧
    (p.alive = true → play p = { p with stopEventSet := false }) ∧
    (p.alive = true → p.stopEventSet = false → play p = p) := by
  refine ⟨fun h => ?_, fun h => ?_, fun h h' => ?_⟩
  · rw [play, if_neg (by simp [h])]
  · rw [play, if_pos h]
  · rw [play, if_pos h]
    cases p
    simp_all

/-- Claim C4 witness: the three amended behaviors at concrete flag
states, including the constructor's state. -/
theorem claim_C4_witness :
    play pilotInitFlags = { pilotInitFlags with alive := true } ∧
    play { alive := true, stopEventSet := true, killEventSet := false } =
      { alive := true, stopEventSet := false, killEventSet := false } ∧
    play { alive := true, stopEventSet := false, killEventSet := false } =
      { alive := true, stopEventSet := false, killEventSet := false } :=
  ⟨(claim_C4_play_amended pilotInitFlags).1 rfl,
   (claim_C4_play_amended _).2.1 rfl,
   (claim_C4_play_amended
     { alive := true, stopEventSet := false, killEventSet := false }).2.2 rfl rfl⟩

/-- Claim C5 counterexample.  The claim says exactly one MetricsSummary
is produced per RUNNING-to-PAUSED OR RUNNING-to-KILLED transition that
followed at least one iteration.  On the concrete trace "one successful
RUNNING iteration, then kill", the segment is active
(`stopped_brain_metrics = true`) yet the loop exits at the top of the
next tick (pilot.py:139) without any summarization: zero summaries are
produced for the RUNNING-to-KILLED transition. -/
theorem claim_C5_kill_no_summary_cex :
    Except.map (fun st => (st.stoppedBrainMetrics, st.summaries))
        (runLoop (initState (some brain0)) [tickRunOk, tickKill]) =
      .ok (true, []) := by
  norm_num [runLoop, tick, osub, initState, tickRunOk, tickKill, brain0, Except.map]

/-- Claim C5, amended: summaries are produced only on RUNNING-to-PAUSED
edges.  A paused tick with the segment active (`stopped_brain_metrics`,
set by every RUNNING tick) that summarizes successfully appends exactly
one summary; a paused tick with no intervening RUNNING iteration appends
none; RUNNING ticks append none; and a kill observed at the top of the
loop exits immediately, producing none. -/
theorem claim_C5_pause_edge_summaries :
    (∀ (st : PilotState) (i : TickInput) (st' : PilotState),
       i.stop = true → st.stoppedBrainMetrics = true → tick st i = .ok st' →
       ∃ s, st'.summaries = st.summaries ++ [s]) ∧
    (∀ (st : PilotState) (i : TickInput) (st' : PilotState),
       i.stop = true → st.stoppedBrainMetrics = false → tick st i = .ok st' →
       st'.summaries = st.summaries) ∧
    (∀ (st : PilotState) (i : TickInput) (st' : PilotState),
       i.stop = false → tick st i = .ok st' → st'.summaries = st.summaries) ∧
    (∀ (st : PilotState) (i : TickInput) (rest : List TickInput),
       i.kill = true → runLoop st (i :: rest) = .ok st) ∧
    (∀ (st : PilotState) (i : TickInput) (st' : PilotState),
       i.stop = false → tick st i = .ok st' → st'.stoppedBrainMetrics = true) := by
  have hrun : ∀ (st : PilotState) (i : TickInput) (st' : PilotState),
      i.stop = false → tick st i = .ok st' →
      st'.summaries = st.summaries ∧ st'.stoppedBrainMetrics = true := by
    intro st i st' hstop htick
    unfold tick at htick
    rw [if_neg (by simp [hstop])] at htick
    rcases hok : i.execOk && st.brain.isSome with _ | _
    · rw [hok] at htick
      simp at htick
      rw [← htick]
      exact ⟨rfl, rfl⟩
    · rw [hok] at htick
      simp at htick
      rcases hsub : osub i.clockEnd i.clockStart with e | d
      · rw [hsub] at htick; cases htick
      · rw [hsub] at htick
        simp at htick
        rw [← htick]
        exact ⟨rfl, rfl⟩
  refine ⟨?_, ?_, fun st i st' h ht => (hrun st i st' h ht).1, ?_,
          fun st i st' h ht => (hrun st i st' h ht).2⟩
  · intro st i st' hstop hseg htick
    unfold tick at htick
    rw [if_pos hstop, if_pos hseg] at htick
    rcases hsum : summarize st.brain st.brainIterationsTime st.rosIterationsTime with e | p
    · rw [hsum] at htick; cases htick
    · obtain ⟨b', s⟩ := p
      rw [hsum] at htick
      simp at htick
      rw [← htick]
      exact ⟨s, rfl⟩
  · intro st i st' hstop hseg htick
    unfold tick at htick
    rw [if_pos hstop, if_neg (by simp [hseg])] at htick
    by_cases hsucc : st.successfulIteration
    · simp [hsucc] at htick
      rcases hsub : osub i.clockEnd i.clockStart with e | d
      · rw [hsub] at htick; cases htick
      · rw [hsub] at htick
        simp at htick
        rw [← htick]
    · simp [hsucc] at htick
      rw [← htick]
  · intro st i rest hkill
    rw [runLoop, if_pos hkill]

/-- Claim C5 witness: the amended behavior at concrete states — the
summarizing pause tick appends exactly one summary, the idle pause tick
appends none, a RUNNING tick appends none and marks the segment active,
and a kill tick exits with the state unchanged. -/
theorem claim_C5_witness :
    (∃ st' s, tick stSeg tickPause = .ok st' ∧
              st'.summaries = stSeg.summaries ++ [s]) ∧
    (∃ st', tick (initState (some brain0)) tickPause = .ok st' ∧
            st'.summaries = (initState (some brain0)).summaries) ∧
    (∃ st', tick (initState (some brain0)) tickRunOk = .ok st' ∧
            st'.summaries = (initState (some brain0)).summaries ∧
            st'.stoppedBrainMetrics = true) ∧
    runLoop stSeg [tickKill] = .ok stSeg := by
  have hA : tick stSeg tickPause =
      .ok { brain := some brain0
            stoppedBrainMetrics := false
            successfulIteration := false
            brainIterationsTime := []
            rosIterationsTime := [1]
            executionCompleted := true
            summaries := [{ mean_iteration_time := 1
                            mean_ros_iteration_time := 1
                            mean_inference_time := 0
                            frame_rate := 0
                            gpu_inference := false
                            first_image := none }] } := by
    norm_num [tick, summarize, summarizeInference_brain0, pydiv, stSeg, tickPause, fallbackInf]
  have hB : tick (initState (some brain0)) tickPause = .ok (initState (some brain0)) := by
    norm_num [tick, initState, tickPause]
  have hC : tick (initState (some brain0)) tickRunOk =
      .ok { brain := some brain0
            stoppedBrainMetrics := true
            successfulIteration := true
            brainIterationsTime := [1]
            rosIterationsTime := [1]
            executionCompleted := false
            summaries := [] } := by
    norm_num [tick, osub, initState, tickRunOk, brain0]
  obtain ⟨s, hs⟩ := claim_C5_pause_edge_summaries.1 stSeg tickPause _ rfl rfl hA
  refine ⟨⟨_, s, hA, hs⟩,
          ⟨_, hB, claim_C5_pause_edge_summaries.2.1 (initState (some brain0)) tickPause _
            rfl rfl hB⟩,
          ⟨_, hC, claim_C5_pause_edge_summaries.2.2.1 (initState (some brain0)) tickRunOk _
            rfl hC, claim_C5_pause_edge_summaries.2.2.2.2 (initState (some brain0)) tickRunOk _
            rfl hC⟩,
          claim_C5_pause_edge_summaries.2.2.2.1 stSeg tickKill [] rfl⟩

/-- Claim C8.  For a RUNNING tick (kill and stop flags clear) whose
`execute()` raises the AttributeError that models "no decision
available", the handler at pilot.py:148-151 marks the iteration failed:
the tick completes without an exception, neither iteration-sample list
gains an entry (`successful_iteration = false` skips pilot.py:203-205),
no pause or kill flag is produced by the loop itself, and the loop
proceeds to the next tick environment. -/
theorem claim_C8_failed_iteration_continues (st : PilotState) (i : TickInput)
    (rest : List TickInput)
    (hk : i.kill = false) (hs : i.stop = false) (he : i.execOk = false) :
    tick st i = .ok { st with executionCompleted := false
                              stoppedBrainMetrics := true
                              successfulIteration := false } ∧
    runLoop st (i :: rest) =
      runLoop { st with executionCompleted := false
                        stoppedBrainMetrics := true
                        successfulIteration := false } rest := by
  have htick : tick st i = .ok { st with executionCompleted := false
                                         stoppedBrainMetrics := true
                                         successfulIteration := false } := by
    unfold tick
    rw [if_neg (by simp [hs]), if_neg (by simp [he])]
    rfl
  exact ⟨htick, by rw [runLoop, if_neg (by simp [hk]), htick]⟩

/-- Claim C8 witness: the failed-iteration tick at the initial state
with one further tick pending. -/
theorem claim_C8_witness :
    tick (initState none) tickRunFail =
      .ok { initState none with executionCompleted := false
                                stoppedBrainMetrics := true
                                successfulIteration := false } ∧
    runLoop (initState none) [tickRunFail, tickRunFail] =
      runLoop { initState none with executionCompleted := false
                                    stoppedBrainMetrics := true
                                    successfulIteration := false } [tickRunFail] :=
  claim_C8_failed_iteration_continues (initState none) tickRunFail [tickRunFail]
    rfl rfl rfl

/-- Claim C9.  `Pilot.kill` deactivates the actuators before setting the
kill flag (pilot.py:225-226).  For a pilot with `robot_type = 'drone'`,
`initialize_robot` leaves `actuators = None` (pilot.py:106-111 assigns
them only when the type differs from 'drone', and pilot.py:76
initialized the attribute to `None`), so `self.actuators.kill()` raises
AttributeError and the method aborts before `kill_event.set()`: the kill
flag is never set and the loop thread keeps running.  With actuators
present, kill deactivates them and sets the flag. -/
theorem claim_C9_kill_drone_attributeerror (rt : String) (h : rt = "drone") :
    initializeActuators rt = none ∧
    pilotKill (initializeActuators rt) = .error PyError.attributeError ∧
    (∀ a : ActuatorsState, pilotKill (some a) = .ok (some { a with active := false }, true)) := by
  subst h
  exact ⟨rfl, rfl, fun a => rfl⟩

/-- Claim C9 witness: the drone robot type. -/
theorem claim_C9_witness :
    initializeActuators "drone" = none ∧
    pilotKill (initializeActuators "drone") = .error PyError.attributeError ∧
    pilotKill (some { active := true }) = .ok (some { active := false }, true) :=
  ⟨(claim_C9_kill_drone_attributeerror "drone" rfl).1,
   (claim_C9_kill_drone_attributeerror "drone" rfl).2.1,
   (claim_C9_kill_drone_attributeerror "drone" rfl).2.2 { active := true }⟩

/-- Claim C10.  For every frame id and every datum, `get_data` after
`update_frame` on that frame id returns exactly that datum, whatever was
stored before (last write wins); and `get_data` on a frame id that no
`update_frame` call ever wrote returns `None` (the `dict.get` default at
CARLAController.py:116). -/
theorem claim_C10_update_get (α : Type) :
    (∀ (ups : List (String × α)) (f : String) (d : α),
       get_data (update_frame (applyUpdates (emptyData α) ups) f d) f = some d) ∧
    (∀ (ups : List (String × α)) (f : String),
       (∀ p ∈ ups, p.1 ≠ f) →
       get_data (applyUpdates (emptyData α) ups) f = none) := by
  constructor
  · intro ups f d
    show (if f = f then some d else applyUpdates (emptyData α) ups f) = some d
    rw [if_pos rfl]
  · intro ups f h
    show applyUpdates (emptyData α) ups f = none
    rw [applyUpdates_not_written ups (emptyData α) f h]
    rfl

/-- Claim C10 witness: overwriting frame "camera" twice returns the last
datum, and a frame never written returns `None`. -/
theorem claim_C10_witness :
    get_data (update_frame (applyUpdates (emptyData ℕ) [("camera", 1)]) "camera" 2) "camera" =
      some 2 ∧
    get_data (applyUpdates (emptyData ℕ) [("camera", 1)]) "laser" = none :=
  ⟨(claim_C10_update_get ℕ).1 [("camera", 1)] "camera" 2,
   (claim_C10_update_get ℕ).2 [("camera", 1)] "laser" (by decide)⟩

end BehaviorMetrics
